import Mathlib

/-!
Shallow embedding of the lab-demo FHIR workflow (src/unnamed/part_000 and the
full document of src/index.js).  The embedding covers, straight from the
source: the batch request bundles the program builds (`createServiceRequestBundle`,
`createReportBundle`, the read-back bundle of `readResults`), the response
handling of `authenticate`, `createServiceRequest`, `createReport` and
`readResults`, and the sequencing of `main`.

JavaScript semantics used throughout: a field that may be absent is an
`Option`; reading a property of `undefined` throws a TypeError, modelled by
`jsGet` returning `Except.error JsErr.typeError`; `await` of a rejected
fetch / response.json() promise rethrows, modelled by the functions taking the
round-trip outcome as an `Except JsErr` argument that is bound first.
-/

/-- Errors a run can surface: a JavaScript TypeError (property access on
undefined), the explicit `Authentication failed.` throw of `authenticate`,
or a rejected fetch / response.json() promise (transport or parse failure). -/
inductive JsErr where
  | typeError
  | authFailed
  | transport (msg : String)
  deriving DecidableEq

/-- Reading through a possibly-undefined JavaScript value: a property access
on `undefined` throws a TypeError, otherwise the value is passed through. -/
def jsGet {α : Type} (o : Option α) : Except JsErr α :=
  match o with
  | some a => Except.ok a
  | none => Except.error JsErr.typeError

/-- `details` object of an entry of `response.outcome.issue`. -/
structure IssueDetails where
  text : Option String
  deriving DecidableEq

/-- One element of `response.outcome.issue`. -/
structure Issue where
  details : Option IssueDetails
  deriving DecidableEq

/-- The `outcome` object of a bundle response entry. -/
structure OperationOutcome where
  issue : List Issue
  deriving DecidableEq

/-- The `response` object of one entry of the bundle response. -/
structure EntryResponse where
  outcome : Option OperationOutcome
  location : Option String
  deriving DecidableEq

/-- One entry of the bundle response returned by the server. -/
structure RespEntry where
  response : Option EntryResponse
  deriving DecidableEq

/-- The parsed JSON body of a batch round-trip: `data.entry` may be absent. -/
structure BundleResponse where
  entry : Option (List RespEntry)
  deriving DecidableEq

/-- The `request` object of a bundle request entry. -/
structure ReqPart where
  method : String
  url : String
  ifNoneExist : Option String := none
  deriving DecidableEq

/-- Projection of a resource payload carried by a create entry: its
`resourceType` and the reference / identifier fields the workflow wires
between entries. -/
structure Resource where
  resourceType : String
  subjectRef : Option String := none
  basedOnRefs : List String := []
  resultRefs : List String := []
  specimenRefs : List String := []
  requestRefs : List String := []
  resultsInterpreterRefs : List String := []
  identifierValues : List String := []
  deriving DecidableEq

/-- One entry of a request bundle:  optional `fullUrl` (the local-id urn),
the `request` object, and the carried resource (absent for GET entries). -/
structure BundleEntry where
  fullUrl : Option String := none
  request : ReqPart
  resource : Option Resource := none
  deriving DecidableEq

/-- A request bundle body: `{ resourceType: 'Bundle', type: 'batch', entry: [...] }`. -/
structure Bundle where
  resourceType : String
  type : String
  entry : List BundleEntry
  deriving DecidableEq

/-- One element of the `result` array of a read-back DiagnosticReport. -/
structure RefObj where
  reference : String
  deriving DecidableEq

/-- The DiagnosticReport JSON read back by the first fetch of `readResults`;
its `result` array may be absent. -/
structure Report where
  result : Option (List RefObj)
  deriving DecidableEq

/-- The parsed JSON body of the token endpoint response. -/
structure AuthData where
  access_token : Option String
  deriving DecidableEq

/-- The token endpoint round-trip: the `ok` flag of the HTTP response and the
outcome of `response.json()`. -/
structure AuthResponse where
  ok : Bool
  json : Except JsErr AuthData

/-- The per-entry read sequence of createServiceRequest:
`entry[i].response.outcome.issue[0].details.text` is logged, then
`entry[i].response.location`; each step on an undefined value throws. -/
def logEntry (e : RespEntry) : Except JsErr (Option String × Option String) := do
  let resp ← jsGet e.response
  let out ← jsGet resp.outcome
  let issue0 ← jsGet (out.issue.get? 0)
  let det ← jsGet issue0.details
  pure (det.text, resp.location)

namespace Part000

/-- The request bundle built by createServiceRequest
(src/unnamed/part_000 lines 90-132): a conditional create of a Patient
carrying the generated local urn as `fullUrl`, then a ServiceRequest create
whose subject references that urn. -/
def createServiceRequestBundle (patientUrn exampleMrn : String) : Bundle :=
  { resourceType := "Bundle", type := "batch",
    entry := [
      { fullUrl := some patientUrn,
        request := { method := "POST", url := "Patient",
                     ifNoneExist := some ("identifier=" ++ exampleMrn) },
        resource := some { resourceType := "Patient",
                           identifierValues := [exampleMrn] } },
      { request := { method := "POST", url := "ServiceRequest" },
        resource := some { resourceType := "ServiceRequest",
                           subjectRef := some patientUrn } } ] }

/-- Response handling of createServiceRequest (src/unnamed/part_000 lines
135-151): binds the round-trip outcome, reads `data.entry[0]` and
`data.entry[1]` (logging outcome text and location of each), and returns the
two `response.location` values.  No entry-count comparison is performed. -/
def createServiceRequest (fetched : Except JsErr BundleResponse) :
    Except JsErr (Option String × Option String) := do
  let data ← fetched
  let entries ← jsGet data.entry
  let e0 ← jsGet (entries.get? 0)
  let p0 ← logEntry e0
  let e1 ← jsGet (entries.get? 1)
  let p1 ← logEntry e1
  pure (p0.2, p1.2)

/-- The request bundle built by createReport (src/unnamed/part_000 lines
170-261): two Observation creates carrying generated local urns, then a
DiagnosticReport create whose `result` references those urns. -/
def createReportBundle (patientId serviceRequestId obsUrn1 obsUrn2 : String) :
    Bundle :=
  { resourceType := "Bundle", type := "batch",
    entry := [
      { fullUrl := some obsUrn1,
        request := { method := "POST", url := "Observation" },
        resource := some { resourceType := "Observation",
                           basedOnRefs := [serviceRequestId],
                           subjectRef := some patientId } },
      { fullUrl := some obsUrn2,
        request := { method := "POST", url := "Observation" },
        resource := some { resourceType := "Observation",
                           basedOnRefs := [serviceRequestId],
                           subjectRef := some patientId } },
      { request := { method := "POST", url := "DiagnosticReport" },
        resource := some { resourceType := "DiagnosticReport",
                           basedOnRefs := [serviceRequestId],
                           subjectRef := some patientId,
                           resultRefs := [obsUrn1, obsUrn2] } } ] }

/-- Response handling of createReport (src/unnamed/part_000 lines 265-268):
binds the round-trip outcome and returns `data.entry[2].response.location`. -/
def createReport (fetched : Except JsErr BundleResponse) :
    Except JsErr (Option String) := do
  let data ← fetched
  let entries ← jsGet data.entry
  let e2 ← jsGet (entries.get? 2)
  let resp ← jsGet e2.response
  pure resp.location

/-- One entry of the read-back bundle of readResults (src/unnamed/part_000
lines 294-299): `{ request: { method: 'GET', url: result.reference } }`. -/
def readbackEntry (r : RefObj) : BundleEntry :=
  { request := { method := "GET", url := r.reference } }

/-- The read-back bundle built by readResults (src/unnamed/part_000 lines
288-300): `report.result.map(...)`; if the report has no `result` array the
`.map` call throws a TypeError. -/
def readbackBundle (report : Report) : Except JsErr Bundle :=
  match report.result with
  | none => Except.error JsErr.typeError
  | some rs => Except.ok { resourceType := "Bundle", type := "batch",
                           entry := rs.map readbackEntry }

/-- readResults (src/unnamed/part_000 lines 271-305): binds the outcome of
the report GET, builds the read-back bundle from `report.result`, and performs
the second round-trip with that bundle as body. -/
def readResults (fetched1 : Except JsErr Report)
    (fetched2 : Bundle → Except JsErr Unit) : Except JsErr Unit := do
  let report ← fetched1
  let b ← readbackBundle report
  fetched2 b

/-- authenticate (src/unnamed/part_000 lines 45-63) as a transition on the
`accessToken` global: on a non-ok response it throws before any assignment;
otherwise it binds `response.json()` and assigns `data.access_token`. -/
def authenticate (resp : AuthResponse) (accessToken : Option String) :
    Except JsErr Unit × Option String :=
  if !resp.ok then (Except.error JsErr.authFailed, accessToken)
  else
    match resp.json with
    | Except.error e => (Except.error e, accessToken)
    | Except.ok d => (Except.ok (), d.access_token)

end Part000

/-- The four stages main runs, in source order. -/
inductive Stage where
  | authenticateStage
  | createServiceRequestStage
  | createReportStage
  | readResultsStage
  deriving DecidableEq

namespace Part000

/-- main (src/unnamed/part_000 lines 34-39), instrumented with the list of
stages it invokes: each stage is awaited in order and a throw aborts the
remaining stages; the second component is the surfaced error, if any. -/
def mainTrace (authResp : AuthResponse)
    (srFetched crFetched : Except JsErr BundleResponse)
    (rrFetched1 : Except JsErr Report)
    (rrFetched2 : Bundle → Except JsErr Unit) : List Stage × Option JsErr :=
  match (authenticate authResp none).1 with
  | Except.error e => ([Stage.authenticateStage], some e)
  | Except.ok _ =>
    match createServiceRequest srFetched with
    | Except.error e =>
        ([Stage.authenticateStage, Stage.createServiceRequestStage], some e)
    | Except.ok _ =>
      match createReport crFetched with
      | Except.error e =>
          ([Stage.authenticateStage, Stage.createServiceRequestStage,
            Stage.createReportStage], some e)
      | Except.ok _ =>
        match readResults rrFetched1 rrFetched2 with
        | Except.error e =>
            ([Stage.authenticateStage, Stage.createServiceRequestStage,
              Stage.createReportStage, Stage.readResultsStage], some e)
        | Except.ok _ =>
            ([Stage.authenticateStage, Stage.createServiceRequestStage,
              Stage.createReportStage, Stage.readResultsStage], none)

end Part000

namespace IndexJs

/-- The request bundle built by createReport (src/index.js lines 333-598):
conditional creates of an Organization (note the source writes the request
url as the misspelled string `Organizaiton`) and a Practitioner, then a
Specimen, an Observation and a DiagnosticReport wired up by the generated
local urns. -/
def createReportBundle (patientId serviceRequestId labUrn practitionerUrn
    specimenUrn observationUrn : String) : Bundle :=
  { resourceType := "Bundle", type := "batch",
    entry := [
      { fullUrl := some labUrn,
        request := { method := "POST", url := "Organizaiton",
                     ifNoneExist := some "identifier=123456789" },
        resource := some { resourceType := "Organization",
                           identifierValues := ["123456789"] } },
      { fullUrl := some practitionerUrn,
        request := { method := "POST", url := "Practitioner",
                     ifNoneExist := some "identifier=999999999" },
        resource := some { resourceType := "Practitioner",
                           identifierValues := ["999999999"] } },
      { fullUrl := some specimenUrn,
        request := { method := "POST", url := "Specimen" },
        resource := some { resourceType := "Specimen",
                           requestRefs := [serviceRequestId],
                           subjectRef := some patientId } },
      { fullUrl := some observationUrn,
        request := { method := "POST", url := "Observation" },
        resource := some { resourceType := "Observation",
                           basedOnRefs := [serviceRequestId],
                           subjectRef := some patientId,
                           specimenRefs := [specimenUrn] } },
      { request := { method := "POST", url := "DiagnosticReport" },
        resource := some { resourceType := "DiagnosticReport",
                           identifierValues := ["30000000", "1000000"],
                           basedOnRefs := [serviceRequestId],
                           subjectRef := some patientId,
                           specimenRefs := [specimenUrn],
                           resultsInterpreterRefs := [practitionerUrn],
                           resultRefs := [observationUrn] } } ] }

/-- Response handling of createReport (src/index.js lines 600-603): binds the
round-trip outcome and returns `data.entry[4].response.location`. -/
def createReport (fetched : Except JsErr BundleResponse) :
    Except JsErr (Option String) := do
  let data ← fetched
  let entries ← jsGet data.entry
  let e4 ← jsGet (entries.get? 4)
  let resp ← jsGet e4.response
  pure resp.location

end IndexJs

/-- A fully populated bundle response entry whose outcome text is `Created`
and whose location is the given reference string, as the server returns on a
successful create. -/
def sampleEntry (loc : String) : RespEntry :=
  { response := some
      { outcome := some { issue := [{ details := some { text := some "Created" } }] },
        location := some loc } }

/-- Error of the Reference Resolver described in spec section 4.4. -/
inductive ResolveErr where
  | duplicateResolution
  deriving DecidableEq

/-- Modelled from the spec: the Reference Resolver of section 4.4 is not part
of src/ (the source destructures locations into plain variables and never
materialises a LocalId map).  Per the spec, inserting a mapping for a LocalId
that already has a mapped permanentId fails with DuplicateResolution;
otherwise the write-once mapping is extended. -/
def resolveInsert (graph : List (String × String)) (localId permanentId : String) :
    Except ResolveErr (List (String × String)) :=
  if (graph.lookup localId).isSome then Except.error ResolveErr.duplicateResolution
  else Except.ok ((localId, permanentId) :: graph)

/-- Per-operation outcome classification of spec section 4.3. -/
inductive OpStatus where
  | created
  | matchedExisting
  | failed
  deriving DecidableEq

/-- Modelled from the spec: the remote conditional-create semantics of
sections 4.3 and 8 (the server is external to src/; the source only attaches
the `ifNoneExist` predicate).  The store maps match predicates to the
permanentId of the entity they matched: an unmatched predicate creates the
entity under a fresh permanentId and records it; a matched predicate returns
the existing permanentId unchanged with status MatchedExisting. -/
def conditionalCreate (store : List (String × String))
    (ifNoneExist freshId : String) :
    (OpStatus × String) × List (String × String) :=
  match store.lookup ifNoneExist with
  | some existingId => ((OpStatus.matchedExisting, existingId), store)
  | none => ((OpStatus.created, freshId), (ifNoneExist, freshId) :: store)

/-- Inversion for a successful bind in the `Except` monad. -/
theorem except_bind_ok {ε α β : Type} {x : Except ε α} {f : α → Except ε β}
    {v : β} (h : x >>= f = Except.ok v) :
    ∃ a, x = Except.ok a ∧ f a = Except.ok v := by
  cases x with
  | error e => simp [Bind.bind, Except.bind] at h
  | ok a => exact ⟨a, rfl, by simpa [Bind.bind, Except.bind] using h⟩

/-- A successful `jsGet` means the value was defined. -/
theorem jsGet_ok {α : Type} {o : Option α} {a : α}
    (h : jsGet o = Except.ok a) : o = some a := by
  cases o with
  | none => simp [jsGet] at h
  | some b => simpa [jsGet] using h

/-- A defined list index is below the length. -/
theorem get?_some_lt {α : Type} {l : List α} {n : Nat} {a : α}
    (h : l.get? n = some a) : n < l.length := by
  by_contra hn
  push_neg at hn
  rw [List.get?_eq_none.mpr hn] at h
  cases h

/-- Claim C2: the read-back batch built by readResults is the element-wise
image of the report's `result` array: for `[Observation/A, Observation/B]`
it holds exactly two GET entries with those urls in order, and in general it
preserves length and positional order. -/
theorem readback_preserves_result_list :
    (∀ a b : String,
        Part000.readbackBundle { result := some [⟨a⟩, ⟨b⟩] } =
          Except.ok { resourceType := "Bundle", type := "batch",
                      entry := [{ request := { method := "GET", url := a } },
                                { request := { method := "GET", url := b } }] }) ∧
    (∀ rs : List RefObj,
        Part000.readbackBundle { result := some rs } =
          Except.ok { resourceType := "Bundle", type := "batch",
                      entry := rs.map Part000.readbackEntry }) ∧
    (∀ rs : List RefObj, (rs.map Part000.readbackEntry).length = rs.length) ∧
    (∀ (rs : List RefObj) (i : Nat),
        (rs.map Part000.readbackEntry).get? i =
          (rs.get? i).map Part000.readbackEntry) := by
  refine ⟨fun a b => rfl, fun rs => rfl, fun rs => by simp, fun rs i => by simp⟩

/-- Claim C3: batch construction and result extraction correlate positionally:
the DiagnosticReport create sits at index 2 of the three-entry part_000 batch
(index 4 of the five-entry index.js batch), and createReport reads the
location precisely from the response entry at that index, whatever the other
entries hold. -/
theorem report_location_read_positionally :
    (∀ p s u1 u2 : String,
        (Part000.createReportBundle p s u1 u2).entry.length = 3 ∧
        (Part000.createReportBundle p s u1 u2).entry.findIdx
            (fun en => Option.map Resource.resourceType en.resource ==
              some "DiagnosticReport") = 2) ∧
    (∀ (e0 e1 : RespEntry) (r2 : EntryResponse),
        Part000.createReport (Except.ok { entry := some [e0, e1, { response := some r2 }] }) =
          Except.ok r2.location) ∧
    (∀ p s l q sp ob : String,
        (IndexJs.createReportBundle p s l q sp ob).entry.length = 5 ∧
        (IndexJs.createReportBundle p s l q sp ob).entry.findIdx
            (fun en => Option.map Resource.resourceType en.resource ==
              some "DiagnosticReport") = 4) ∧
    (∀ (e0 e1 e2 e3 : RespEntry) (r4 : EntryResponse),
        IndexJs.createReport
            (Except.ok { entry := some [e0, e1, e2, e3, { response := some r4 }] }) =
          Except.ok r4.location) := by
  exact ⟨fun p s u1 u2 => ⟨rfl, rfl⟩, fun e0 e1 r2 => rfl,
         fun p s l q sp ob => ⟨rfl, rfl⟩, fun e0 e1 e2 e3 r4 => rfl⟩

/-- Claim C5: a failed round-trip (rejected fetch or non-parseable body)
propagates out of createServiceRequest, createReport and readResults as the
whole-batch error, before any per-entry result value is produced; in
readResults a failure of either round-trip propagates the same way. -/
theorem transport_failure_propagates :
    (∀ e : JsErr, Part000.createServiceRequest (Except.error e) = Except.error e) ∧
    (∀ e : JsErr, Part000.createReport (Except.error e) = Except.error e) ∧
    (∀ e : JsErr, IndexJs.createReport (Except.error e) = Except.error e) ∧
    (∀ (e : JsErr) (f2 : Bundle → Except JsErr Unit),
        Part000.readResults (Except.error e) f2 = Except.error e) ∧
    (∀ (rs : List RefObj) (e : JsErr),
        Part000.readResults (Except.ok { result := some rs })
          (fun _b => Except.error e) = Except.error e) := by
  exact ⟨fun e => rfl, fun e => rfl, fun e => rfl, fun e f2 => rfl,
         fun rs e => rfl⟩

/-- Claim C9: in the createReport batch of src/index.js the Organization
create entry carries `request.url` equal to the misspelled string
`Organizaiton` while the resource's `resourceType` is `Organization`, so the
implicit invariant that a create entry's url equals its resource's
resourceType fails there, although every entry of the part_000 batches
satisfies it. -/
theorem createReport_organization_url_typo :
    (((IndexJs.createReportBundle "Patient/p" "ServiceRequest/s" "urn:uuid:l"
          "urn:uuid:q" "urn:uuid:sp" "urn:uuid:ob").entry.get? 0).map
        (fun en => (en.request.url, Option.map Resource.resourceType en.resource)) =
      some ("Organizaiton", some "Organization")) ∧
    ("Organizaiton" ≠ "Organization") ∧
    (∀ p s l q sp ob : String,
        ((IndexJs.createReportBundle p s l q sp ob).entry.all
          (fun en => Option.map Resource.resourceType en.resource ==
            some en.request.url)) = false) ∧
    (∀ u m : String,
        ((Part000.createServiceRequestBundle u m).entry.all
          (fun en => Option.map Resource.resourceType en.resource ==
            some en.request.url)) = true) ∧
    (∀ p s u1 u2 : String,
        ((Part000.createReportBundle p s u1 u2).entry.all
          (fun en => Option.map Resource.resourceType en.resource ==
            some en.request.url)) = true) := by
  exact ⟨rfl, by decide, fun p s l q sp ob => rfl, fun u m => rfl,
         fun p s u1 u2 => rfl⟩

/-- Claim C10: authenticate is atomic with respect to the accessToken global:
a non-ok token response throws `Authentication failed.` and leaves the token
unchanged, a body parse failure also leaves it unchanged, and only on a
successful response is the token assigned, to the body's access_token field. -/
theorem authenticate_token_atomic :
    ∀ (resp : AuthResponse) (tok : Option String),
      (resp.ok = false →
        Part000.authenticate resp tok = (Except.error JsErr.authFailed, tok)) ∧
      (∀ e : JsErr, resp.ok = true → resp.json = Except.error e →
        Part000.authenticate resp tok = (Except.error e, tok)) ∧
      (∀ d : AuthData, resp.ok = true → resp.json = Except.ok d →
        Part000.authenticate resp tok = (Except.ok (), d.access_token)) := by
  intro resp tok
  refine ⟨fun h => by simp [Part000.authenticate, h],
          fun e hok hj => by simp [Part000.authenticate, hok, hj],
          fun d hok hj => by simp [Part000.authenticate, hok, hj]⟩

/-- Claim C10 witness: the three cases of `authenticate_token_atomic`
evaluated on concrete token responses, starting from a null token. -/
theorem authenticate_token_atomic_witness :
    (Part000.authenticate { ok := false, json := Except.ok { access_token := some "t" } } none =
      (Except.error JsErr.authFailed, none)) ∧
    (Part000.authenticate { ok := true, json := Except.error (JsErr.transport "bad json") } none =
      (Except.error (JsErr.transport "bad json"), none)) ∧
    (Part000.authenticate { ok := true, json := Except.ok { access_token := some "t" } } none =
      (Except.ok (), some "t")) :=
  ⟨(authenticate_token_atomic _ none).1 rfl,
   (authenticate_token_atomic _ none).2.1 (JsErr.transport "bad json") rfl rfl,
   (authenticate_token_atomic _ none).2.2 { access_token := some "t" } rfl rfl⟩

/-- Claim C1 counterexample: the executor performs no shape check.  A response
carrying three entries for the two-entry createServiceRequest bundle is
accepted and its first two locations returned, instead of failing with a
ResponseShapeMismatch; so it is false that the function either fails or
obtains a response whose entry count equals the request's entry count. -/
theorem createServiceRequest_accepts_mismatched_shape :
    ¬ ∀ br : BundleResponse,
        (Part000.createServiceRequest (Except.ok br)).isOk = true →
        Option.map List.length br.entry =
          some (Part000.createServiceRequestBundle "urn:uuid:u" "m").entry.length := by
  intro h
  have h3 := h { entry := some [sampleEntry "Patient/1", sampleEntry "ServiceRequest/2",
                                sampleEntry "Extra/3"] } rfl
  exact absurd h3 (by decide)

/-- Claim C1 (amended): the batch-submitting functions never compare entry
counts and have no ResponseShapeMismatch; each either fails (a TypeError, in
particular when the response lacks an entry at one of the fixed indices it
reads: 0 and 1 for createServiceRequest, 2 for part_000's createReport, 4 for
index.js's createReport) or returns the locations read at those indices, so a
successful return only guarantees the response holds at least as many entries
as the highest index read, not equality with the request's entry count. -/
theorem create_functions_access_bounds :
    (∀ (br : BundleResponse) (v : Option String × Option String),
        Part000.createServiceRequest (Except.ok br) = Except.ok v →
        ∃ es, br.entry = some es ∧ 2 ≤ es.length) ∧
    (∀ (br : BundleResponse) (v : Option String),
        Part000.createReport (Except.ok br) = Except.ok v →
        ∃ es, br.entry = some es ∧ 3 ≤ es.length) ∧
    (∀ (br : BundleResponse) (v : Option String),
        IndexJs.createReport (Except.ok br) = Except.ok v →
        ∃ es, br.entry = some es ∧ 5 ≤ es.length) ∧
    (∀ e0 : RespEntry,
        (Part000.createServiceRequest
          (Except.ok { entry := some [e0] })).isOk = false) := by
  refine ⟨?_, ?_, ?_, ?_⟩
  · intro br v h
    simp only [Part000.createServiceRequest] at h
    obtain ⟨d, hd, h⟩ := except_bind_ok h
    injection hd with hd
    subst hd
    obtain ⟨entries, hent, h⟩ := except_bind_ok h
    obtain ⟨e0, he0, h⟩ := except_bind_ok h
    obtain ⟨p0, hp0, h⟩ := except_bind_ok h
    obtain ⟨e1, he1, h⟩ := except_bind_ok h
    refine ⟨entries, jsGet_ok hent, ?_⟩
    have := get?_some_lt (jsGet_ok he1)
    omega
  · intro br v h
    simp only [Part000.createReport] at h
    obtain ⟨d, hd, h⟩ := except_bind_ok h
    injection hd with hd
    subst hd
    obtain ⟨entries, hent, h⟩ := except_bind_ok h
    obtain ⟨e2, he2, h⟩ := except_bind_ok h
    refine ⟨entries, jsGet_ok hent, ?_⟩
    have := get?_some_lt (jsGet_ok he2)
    omega
  · intro br v h
    simp only [IndexJs.createReport] at h
    obtain ⟨d, hd, h⟩ := except_bind_ok h
    injection hd with hd
    subst hd
    obtain ⟨entries, hent, h⟩ := except_bind_ok h
    obtain ⟨e4, he4, h⟩ := except_bind_ok h
    refine ⟨entries, jsGet_ok hent, ?_⟩
    have := get?_some_lt (jsGet_ok he4)
    omega
  · intro e0
    simp only [Part000.createServiceRequest]
    cases hl : logEntry e0 with
    | error e => simp [Bind.bind, Except.bind, jsGet, hl, Except.isOk, Except.toBool]
    | ok p =>
        simp [Bind.bind, Except.bind, jsGet, hl, List.get?, Except.isOk, Except.toBool]

/-- Claim C1 witness: `create_functions_access_bounds` applied to a fully
populated two-entry response accepted by createServiceRequest. -/
theorem create_functions_access_bounds_witness :
    ∃ es, (BundleResponse.mk (some [sampleEntry "Patient/1", sampleEntry "ServiceRequest/2"])).entry =
        some es ∧ 2 ≤ es.length :=
  create_functions_access_bounds.1
    { entry := some [sampleEntry "Patient/1", sampleEntry "ServiceRequest/2"] }
    (some "Patient/1", some "ServiceRequest/2") rfl

/-- Claim C4: once a LocalId is resolved, any second insertion for the same
LocalId fails with DuplicateResolution, and the write-once mapping still
holds the first permanentId. -/
theorem resolveInsert_duplicate :
    ∀ (g : List (String × String)) (l p p2 : String) (g2 : List (String × String)),
      resolveInsert g l p = Except.ok g2 →
      g2.lookup l = some p ∧
      resolveInsert g2 l p2 = Except.error ResolveErr.duplicateResolution := by
  intro g l p p2 g2 h
  by_cases hl : (g.lookup l).isSome
  · simp [resolveInsert, hl] at h
  · simp [resolveInsert, hl] at h
    subst h
    constructor
    · simp [List.lookup]
    · simp [resolveInsert, List.lookup]

/-- Claim C4 witness: `resolveInsert_duplicate` on the empty graph: resolving
LocalId L to Patient/X succeeds, so a second resolution of L fails with
DuplicateResolution while the mapping still holds Patient/X. -/
theorem resolveInsert_duplicate_witness :
    ([("L", "Patient/X")] : List (String × String)).lookup "L" = some "Patient/X" ∧
    resolveInsert [("L", "Patient/X")] "L" "Patient/Y" =
      Except.error ResolveErr.duplicateResolution :=
  resolveInsert_duplicate [] "L" "Patient/X" "Patient/Y" [("L", "Patient/X")] rfl

/-- Claim C6: main runs its four stages strictly in order with no retry: when
authenticate fails only authenticate has run, when createServiceRequest fails
the trace stops there, when createReport fails readResults never runs, and no
stage is ever invoked more than once in a run. -/
theorem main_stage_sequencing :
    (∀ (a : AuthResponse) (b c : Except JsErr BundleResponse)
        (d : Except JsErr Report) (f : Bundle → Except JsErr Unit),
        (Part000.authenticate a none).1.isOk = false →
        (Part000.mainTrace a b c d f).1 = [Stage.authenticateStage]) ∧
    (∀ (a : AuthResponse) (b c : Except JsErr BundleResponse)
        (d : Except JsErr Report) (f : Bundle → Except JsErr Unit),
        (Part000.authenticate a none).1.isOk = true →
        (Part000.createServiceRequest b).isOk = false →
        (Part000.mainTrace a b c d f).1 =
          [Stage.authenticateStage, Stage.createServiceRequestStage]) ∧
    (∀ (a : AuthResponse) (b c : Except JsErr BundleResponse)
        (d : Except JsErr Report) (f : Bundle → Except JsErr Unit),
        (Part000.authenticate a none).1.isOk = true →
        (Part000.createServiceRequest b).isOk = true →
        (Part000.createReport c).isOk = false →
        (Part000.mainTrace a b c d f).1 =
          [Stage.authenticateStage, Stage.createServiceRequestStage,
           Stage.createReportStage]) ∧
    (∀ (a : AuthResponse) (b c : Except JsErr BundleResponse)
        (d : Except JsErr Report) (f : Bundle → Except JsErr Unit) (s : Stage),
        ((Part000.mainTrace a b c d f).1.count s) ≤ 1) := by
  refine ⟨?_, ?_, ?_, ?_⟩
  · intro a b c d f h
    unfold Part000.mainTrace
    cases hA : (Part000.authenticate a none).1 with
    | error e => rfl
    | ok u => rw [hA] at h; simp [Except.isOk, Except.toBool] at h
  · intro a b c d f hA hB
    unfold Part000.mainTrace
    cases hA2 : (Part000.authenticate a none).1 with
    | error e => rw [hA2] at hA; simp [Except.isOk, Except.toBool] at hA
    | ok u =>
      cases hB2 : Part000.createServiceRequest b with
      | error e => rfl
      | ok v => rw [hB2] at hB; simp [Except.isOk, Except.toBool] at hB
  · intro a b c d f hA hB hC
    unfold Part000.mainTrace
    cases hA2 : (Part000.authenticate a none).1 with
    | error e => rw [hA2] at hA; simp [Except.isOk, Except.toBool] at hA
    | ok u =>
      cases hB2 : Part000.createServiceRequest b with
      | error e => rw [hB2] at hB; simp [Except.isOk, Except.toBool] at hB
      | ok v =>
        cases hC2 : Part000.createReport c with
        | error e => rfl
        | ok w => rw [hC2] at hC; simp [Except.isOk, Except.toBool] at hC
  · intro a b c d f s
    unfold Part000.mainTrace
    cases (Part000.authenticate a none).1 with
    | error e =>
        show ([Stage.authenticateStage] : List Stage).count s ≤ 1
        cases s <;> decide
    | ok u =>
      cases Part000.createServiceRequest b with
      | error e =>
          show ([Stage.authenticateStage, Stage.createServiceRequestStage] :
            List Stage).count s ≤ 1
          cases s <;> decide
      | ok v =>
        cases Part000.createReport c with
        | error e =>
            show ([Stage.authenticateStage, Stage.createServiceRequestStage,
              Stage.createReportStage] : List Stage).count s ≤ 1
            cases s <;> decide
        | ok w =>
          cases Part000.readResults d f with
          | error e =>
              show ([Stage.authenticateStage, Stage.createServiceRequestStage,
                Stage.createReportStage, Stage.readResultsStage] :
                List Stage).count s ≤ 1
              cases s <;> decide
          | ok z =>
              show ([Stage.authenticateStage, Stage.createServiceRequestStage,
                Stage.createReportStage, Stage.readResultsStage] :
                List Stage).count s ≤ 1
              cases s <;> decide

/-- Claim C6 witness: `main_stage_sequencing` on concrete runs: a rejected
authentication stops after the first stage; with a good token and a transport
failure on the first batch the trace stops after two stages; with a good
first batch and a failing second batch readResults never runs. -/
theorem main_stage_sequencing_witness :
    ((Part000.mainTrace { ok := false, json := Except.ok { access_token := some "t" } }
        (Except.error JsErr.typeError) (Except.error JsErr.typeError)
        (Except.error JsErr.typeError) (fun _b => Except.ok ())).1 =
      [Stage.authenticateStage]) ∧
    ((Part000.mainTrace { ok := true, json := Except.ok { access_token := some "t" } }
        (Except.error (JsErr.transport "down")) (Except.error JsErr.typeError)
        (Except.error JsErr.typeError) (fun _b => Except.ok ())).1 =
      [Stage.authenticateStage, Stage.createServiceRequestStage]) ∧
    ((Part000.mainTrace { ok := true, json := Except.ok { access_token := some "t" } }
        (Except.ok { entry := some [sampleEntry "Patient/1", sampleEntry "ServiceRequest/2"] })
        (Except.error (JsErr.transport "down"))
        (Except.error JsErr.typeError) (fun _b => Except.ok ())).1 =
      [Stage.authenticateStage, Stage.createServiceRequestStage,
       Stage.createReportStage]) :=
  ⟨main_stage_sequencing.1 _ _ _ _ _ rfl,
   main_stage_sequencing.2.1 _ _ _ _ _ rfl rfl,
   main_stage_sequencing.2.2.1 _ _ _ _ _ rfl rfl rfl⟩

/-- Claim C7: conditional create is idempotent: with the store not matching
the predicate, the first submission returns Created with a fresh permanentId
and the second submission of the same predicate returns MatchedExisting with
the same permanentId; the source attaches exactly such a predicate
(`identifier=` ++ mrn) to the Patient entry of the createServiceRequest
batch. -/
theorem conditionalCreate_idempotent :
    (∀ (store : List (String × String)) (matchPred freshId freshId2 : String),
        store.lookup matchPred = none →
        conditionalCreate store matchPred freshId =
          ((OpStatus.created, freshId), (matchPred, freshId) :: store) ∧
        conditionalCreate (conditionalCreate store matchPred freshId).2
            matchPred freshId2 =
          ((OpStatus.matchedExisting, freshId), (matchPred, freshId) :: store)) ∧
    (∀ u m : String,
        ((Part000.createServiceRequestBundle u m).entry.get? 0).map
            (fun en => en.request.ifNoneExist) =
          some (some ("identifier=" ++ m))) := by
  constructor
  · intro store matchPred freshId freshId2 h
    constructor
    · simp [conditionalCreate, h]
    · simp [conditionalCreate, h, List.lookup]
  · intro u m
    rfl

/-- Claim C7 witness: `conditionalCreate_idempotent` on the empty store with
the predicate `identifier=MRN-1`: the first submission yields Created with
Patient/X, the replay yields MatchedExisting with the same Patient/X. -/
theorem conditionalCreate_idempotent_witness :
    conditionalCreate [] "identifier=MRN-1" "Patient/X" =
      ((OpStatus.created, "Patient/X"), [("identifier=MRN-1", "Patient/X")]) ∧
    conditionalCreate (conditionalCreate [] "identifier=MRN-1" "Patient/X").2
        "identifier=MRN-1" "Patient/Y" =
      ((OpStatus.matchedExisting, "Patient/X"), [("identifier=MRN-1", "Patient/X")]) :=
  conditionalCreate_idempotent.1 [] "identifier=MRN-1" "Patient/X" "Patient/Y" rfl

/-- Claim C8: the read-back batch built by readResults allocates no LocalId
(no entry carries a fullUrl urn) and every entry is a GET whose url is drawn
from the result references of the already-read DiagnosticReport, so no batch
contains a Read of a LocalId allocated in that same batch. -/
theorem readback_no_local_ids :
    (∀ rs : List RefObj,
        Part000.readbackBundle { result := some rs } =
          Except.ok { resourceType := "Bundle", type := "batch",
                      entry := rs.map Part000.readbackEntry }) ∧
    (∀ (rs : List RefObj) (en : BundleEntry),
        en ∈ rs.map Part000.readbackEntry →
        en.fullUrl = none ∧ en.request.method = "GET" ∧
        en.request.url ∈ rs.map RefObj.reference) := by
  constructor
  · intro rs
    rfl
  · intro rs en hen
    obtain ⟨r, hr, rfl⟩ := List.mem_map.mp hen
    exact ⟨rfl, rfl, List.mem_map.mpr ⟨r, hr, rfl⟩⟩

/-- Claim C8 witness: `readback_no_local_ids` on a one-element result list:
the single read-back entry has no fullUrl, method GET, and its url is the
report's result reference. -/
theorem readback_no_local_ids_witness :
    (Part000.readbackEntry ⟨"Observation/A"⟩).fullUrl = none ∧
    (Part000.readbackEntry ⟨"Observation/A"⟩).request.method = "GET" ∧
    (Part000.readbackEntry ⟨"Observation/A"⟩).request.url ∈
      ([⟨"Observation/A"⟩] : List RefObj).map RefObj.reference :=
  readback_no_local_ids.2 [⟨"Observation/A"⟩] (Part000.readbackEntry ⟨"Observation/A"⟩)
    (List.mem_map.mpr ⟨⟨"Observation/A"⟩, List.mem_singleton.mpr rfl, rfl⟩)
